import Mathlib

/-!
# Decoupled-CloudVolume: verification of the spatial request broker

Shallow embedding of the broker's control plane (client front-end,
spatial scheduler, volume worker, fill-dispatch primitive and geometry
utilities) together with proofs about the properties stated in the
specification.  Python integers are modelled as `Int` (arbitrary
precision, as in the source), element counts as `Nat`, msgpack maps as
insertion-ordered association lists, and the single-threaded
scheduler/worker loops as explicit step functions over their state.
All definitions come first; the theorems are grouped at the end.
-/

namespace DCV

/-! ## Geometry utilities (src/utils.py) -/

/-- A flat bounding box `[x1, y1, z1, x2, y2, z2]` as consumed by
`calc_intersection_volume` in `src/utils.py`. -/
structure BBox where
  x1 : Int
  y1 : Int
  z1 : Int
  x2 : Int
  y2 : Int
  z2 : Int
deriving DecidableEq, Repr

/-- `calc_intersection_volume(bbox_a, bbox_b)` from `src/utils.py`
(lines 41-62): intersect the coordinate intervals with `max`/`min`; if
any intersection interval is empty (`ix1 >= ix2` etc.) return `0`,
otherwise the product of the three interval lengths.  The source binds
the intermediate `ix1 ... iz2` to locals; they are inlined here. -/
def calc_intersection_volume (a b : BBox) : Int :=
  if max a.x1 b.x1 ≥ min a.x2 b.x2 ∨ max a.y1 b.y1 ≥ min a.y2 b.y2 ∨
     max a.z1 b.z1 ≥ min a.z2 b.z2 then
    0
  else
    (min a.x2 b.x2 - max a.x1 b.x1) * (min a.y2 b.y2 - max a.y1 b.y1) *
      (min a.z2 b.z2 - max a.z1 b.z1)

/-- Volume of a flat box: product of its three extents. -/
def bboxVolume (b : BBox) : Int :=
  (b.x2 - b.x1) * (b.y2 - b.y1) * (b.z2 - b.z1)

/-- A valid half-open box per the spec's data model: `x1<x2 ∧ y1<y2 ∧ z1<z2`. -/
def BBox.valid (b : BBox) : Prop :=
  b.x1 < b.x2 ∧ b.y1 < b.y2 ∧ b.z1 < b.z2

instance (b : BBox) : Decidable b.valid := by
  unfold BBox.valid
  exact inferInstance

/-! ## Fill dispatch (src/utils.py `fast_fill`, duplicated in
src/VolumeWorker.py `VolumeWorker.fast_fill`) -/

/-- The facts about the numpy array that `fast_fill` inspects:
contiguity flags, element size, whether the dtype is an integer
subtype, the element count and the base address (`array.ctypes.data`,
passed to the native fill). -/
structure ArrayDesc where
  cContiguous : Bool
  fContiguous : Bool
  itemsize : Nat
  intDtype : Bool
  size : Nat
  baseAddr : Nat
deriving DecidableEq, Repr

/-- `array.nbytes`: element count times element size. -/
def ArrayDesc.nbytes (a : ArrayDesc) : Nat :=
  a.size * a.itemsize

/-- The call `fast_fill` ends up making: the scalar NumPy fallback
(`array.fill(value)`), the byte filler `parallel_fill_u8(ptr, size_bytes,
value, threads)`, or the word filler `parallel_fill_u64(ptr,
num_elements, value, threads)`. -/
inductive FillCall where
  | numpyFill (value : Int)
  | fillU8 (sizeBytes : Nat) (value : Nat)
  | fillU64 (numElements : Nat) (value : Nat)
deriving DecidableEq, Repr

/-- `fast_fill(array, value, num_threads)` from `src/utils.py` lines
83-133: fall back to NumPy when the native library is not loaded or the
array is not contiguous; dispatch `parallel_fill_u8` for `value == 0`
(strategy A); dispatch `parallel_fill_u64` for nonzero values on 8-byte
integer dtypes when the library exports it (strategy B, with
`ctypes.c_uint64(int(value))` wrapping the value modulo `2^64`);
dispatch `parallel_fill_u8` with `value & 0xFF` for 1-byte dtypes
(strategy C); otherwise fall back to NumPy (strategy D). -/
def fast_fill (libLoaded hasU64 : Bool) (a : ArrayDesc) (value : Int) : FillCall :=
  if libLoaded = false then .numpyFill value
  else if ¬(a.cContiguous = true ∨ a.fContiguous = true) then .numpyFill value
  else if value = 0 then .fillU8 a.nbytes 0
  else if a.itemsize = 8 ∧ a.intDtype = true then
    (if hasU64 = true then .fillU64 a.size ((value % (2 : Int) ^ 64).toNat)
     else .numpyFill value)
  else if a.itemsize = 1 then .fillU8 a.nbytes ((value % 256).toNat)
  else .numpyFill value

/-! ## Wire payloads (msgpack maps, modelled as insertion-ordered
association lists, matching Python dict semantics) -/

/-- A msgpack value as used by this system: UTF-8 strings, signed
integers, integer lists (bbox/shape) and opaque byte strings
(transport identities). -/
inductive Val where
  | s (v : String)
  | i (v : Int)
  | il (v : List Int)
  | bytes (v : List Nat)
deriving DecidableEq, Repr

/-- A wire record: keys in insertion order, as in a Python dict. -/
abbrev Payload := List (String × Val)

/-- The record's field names, in insertion order. -/
def dictKeys (p : Payload) : List String :=
  p.map Prod.fst

/-- Python `p.get(k)`: the value at the first (only) occurrence of `k`. -/
def dictGet : Payload → String → Option Val
  | [], _ => none
  | kv :: rest, k => if kv.1 = k then some kv.2 else dictGet rest k

/-- Python `p[k] = v`: replace in place when the key is present (dicts
preserve insertion order on update), otherwise append. -/
def dictSet : Payload → String → Val → Payload
  | [], k, v => [(k, v)]
  | kv :: rest, k, v => if kv.1 = k then (k, v) :: rest else kv :: dictSet rest k v

/-- The READ record built by `ClientProxy._send_request`
(src/ClientProxy.py lines 163-180): exactly the seven fields below, in
this order.  The payload built by the source carries neither a
`data_size` nor a `bg_color` field. -/
def sendRequestPayload (req_id : String) (bbox_list shape_list : List Int)
    (dtype shm_name order : String) : Payload :=
  [("type", .s "READ"), ("req_id", .s req_id), ("bbox", .il bbox_list),
   ("shape", .il shape_list), ("dtype", .s dtype), ("shm_name", .s shm_name),
   ("order", .s order)]

/-- `payload['client_id'] = client_id` performed by
`SpatialScheduler._dispatch_request` (line 167) before forwarding the
READ to the chosen worker. -/
def injectClientId (p : Payload) (client_id : List Nat) : Payload :=
  dictSet p "client_id" (.bytes client_id)

/-! ## Client front-end (src/ClientProxy.py) -/

/-- `Bbox.to_list()`: the six coordinates `[x1, y1, z1, x2, y2, z2]`. -/
def bboxToList (b : BBox) : List Int :=
  [b.x1, b.y1, b.z1, b.x2, b.y2, b.z2]

/-- `shape = list(bbox.size3()) + [self.num_channels]` in
`ClientProxy.__getitem__` (line 99). -/
def computeShape (b : BBox) (num_channels : Int) : List Int :=
  [b.x2 - b.x1, b.y2 - b.y1, b.z2 - b.z1, num_channels]

/-- The exact (unbounded) product of a list of ints.  `np.prod` itself
reduces in int64 and wraps on overflow — see `npProdInt64`; the two
agree whenever the exact product is 0 (a zero factor wraps to 0) and
on all products that fit in int64. -/
def prodInt (l : List Int) : Int :=
  l.foldl (· * ·) 1

/-- Two's-complement wraparound to signed 64-bit, as numpy int64
arithmetic does on overflow. -/
def int64Wrap (n : Int) : Int :=
  (n + 2 ^ 63) % 2 ^ 64 - 2 ^ 63

/-- `np.prod(shape)` as the source computes it
(`ClientProxy.__getitem__` line 102): the Python list of ints becomes
an int64 array (numpy raises on values that do not fit, so the
elements themselves are int64-representable) and the product is
reduced in int64, wrapping at every multiplication — e.g.
`np.prod([2^32, 2^32, 1, 1]) == 0`. -/
def npProdInt64 (l : List Int) : Int :=
  l.foldl (fun acc v => int64Wrap (acc * v)) 1

/-- The per-client constants `__getitem__` reads:
`self.background_color`, `self.num_channels`, the dtype's item size,
its string form, and the generated `req_id` / `shm_name`. -/
structure ClientEnv where
  background_color : Int
  num_channels : Int
  itemsize : Int
  dtype : String
  req_id : String
  shm_name : String
deriving DecidableEq, Repr

/-- Observable effects of one `ClientProxy.__getitem__` call.
`directVolumeCall` (calling the local volume library, bypassing the
broker) is included so its absence can be stated: no line of
`__getitem__` performs it. -/
inductive ClientAction where
  | createShm (nbytes : Int)
  | fillBuffer (value : Int)
  | closeShm
  | unlinkShm
  | sendRead (payload : Payload)
  | attachShm
  | directVolumeCall
deriving DecidableEq, Repr

/-- Outcome of `_wait_response`: matching OK result, worker-reported
error (`status != 'OK'`), or timeout. -/
inductive WaitOutcome where
  | ok
  | workerError
  | timeout
deriving DecidableEq, Repr

/-- `_manual_cleanup` (src/ClientProxy.py lines 205-215): attach the
buffer by name, close it and unlink it; every exception is swallowed,
so if the buffer no longer exists only the failed attach attempt
happens. -/
def manualCleanupActions (bufStillExists : Bool) : List ClientAction :=
  if bufStillExists then [.attachShm, .closeShm, .unlinkShm] else [.attachShm]

/-- One run of `ClientProxy.__getitem__` (src/ClientProxy.py lines
93-135), returning the actions performed and whether an exception was
raised.  Failure knobs stand for the exception sites of the source:
`fillOk = false` — an exception inside `_init_shared_buffer`'s try
block (its handler closes and unlinks before re-raising);
`sendOk = false` — `_send_request` raises; `wait` — the three
`_wait_response` outcomes; `bufStillExists = false` — the shared
buffer is no longer in the OS namespace, so the `AutoReleaseArray`
attach raises and the except-path `_manual_cleanup` finds nothing.
Every exception after `_init_shared_buffer` lands in the `except`
clause of `__getitem__`, which runs `_manual_cleanup` and re-raises.
The emptiness guard `np.prod(shape) == 0` (line 102) and the buffer
size `int(np.prod(shape) * self.meta_dtype.itemsize)` (line 142) both
go through numpy's int64 product, so they wrap on overflow
(`npProdInt64` / `int64Wrap`). -/
def clientReadRun (env : ClientEnv) (b : BBox) (fillOk sendOk : Bool)
    (wait : WaitOutcome) (bufStillExists : Bool) :
    List ClientAction × Bool :=
  let shape := computeShape b env.num_channels
  if npProdInt64 shape = 0 then
    ([], true)
  else
    let nbytes := int64Wrap (npProdInt64 shape * env.itemsize)
    if fillOk = false then
      ([.createShm nbytes, .closeShm, .unlinkShm], true)
    else
      let created := [ClientAction.createShm nbytes,
        .fillBuffer env.background_color, .closeShm]
      let payload := sendRequestPayload env.req_id (bboxToList b) shape
        env.dtype env.shm_name "F"
      if sendOk = false then
        (created ++ manualCleanupActions bufStillExists, true)
      else
        match wait with
        | .timeout => (created ++ [.sendRead payload] ++ manualCleanupActions bufStillExists, true)
        | .workerError => (created ++ [.sendRead payload] ++ manualCleanupActions bufStillExists, true)
        | .ok =>
            if bufStillExists = false then
              (created ++ [.sendRead payload] ++ manualCleanupActions false, true)
            else
              (created ++ [.sendRead payload, .attachShm], false)

/-! ## Worker fill pipeline (src/VolumeWorker.py `_process_request`) -/

/-- `bg_color = req.get('bg_color', 0)` (src/VolumeWorker.py line 104):
the value the worker fills the shared buffer with; it defaults to `0`
when the READ payload carries no `bg_color` field.  (Payloads produced
by this system never carry a non-integer `bg_color`, so the wildcard
branch is only the missing-key default.) -/
def workerFillValue (req : Payload) : Int :=
  match dictGet req "bg_color" with
  | some (.i v) => v
  | _ => 0

/-- Shared-buffer contents as a list of element values. -/
abbrev Buffer := List Int

/-- `_init_shared_buffer` (src/ClientProxy.py lines 137-161): the fresh
buffer is filled with `self.background_color`. -/
def clientInitBuffer (n : Nat) (background_color : Int) : Buffer :=
  List.replicate n background_color

/-- Step 2 of `_process_request` (line 118): `_fast_fill` writes
`req.get('bg_color', 0)` into every element of the attached buffer,
overwriting whatever the client put there. -/
def workerFillBuffer (req : Payload) (buf : Buffer) : Buffer :=
  List.replicate buf.length (workerFillValue req)

/-- Modelled from the spec: the underlying volume library "writes only
the covered/decoded voxels and leaves gaps untouched" (spec §4.3 step
4 rationale); a read of an entirely missing region with `fill_missing`
enabled therefore writes nothing into the bound render buffer.  The
volume library itself is outside src/ (an external collaborator). -/
def volumeWriteEntirelyMissing (buf : Buffer) : Buffer :=
  buf

/-- End-to-end buffer contents of a brokered read whose requested
region is entirely missing: the client creates and background-fills
the buffer, the scheduler injects `client_id` into the READ payload,
the worker refills the buffer with `req.get('bg_color', 0)`, and the
volume read writes nothing. -/
def brokeredMissingReadResult (env : ClientEnv) (b : BBox) (client_id : List Nat) : Buffer :=
  let shape := computeShape b env.num_channels
  let n := (prodInt shape).toNat
  let payload := sendRequestPayload env.req_id (bboxToList b) shape
    env.dtype env.shm_name "F"
  volumeWriteEntirelyMissing
    (workerFillBuffer (injectClientId payload client_id)
      (clientInitBuffer n env.background_color))

/-- The spec's minimal-scenario client constants: `uint8`, one channel,
background colour 7 (spec §8 scenario 1). -/
def c1Env : ClientEnv :=
  ⟨7, 1, 1, "uint8", "777_req_0a", "777_shm_beef"⟩

/-- The spec's minimal-scenario box `(0,0,0,10,10,1)`. -/
def c1Box : BBox :=
  ⟨0, 0, 0, 10, 10, 1⟩

/-! ## Spatial scheduler (src/SpatialScheduler.py) -/

/-- Scheduler state (`SpatialScheduler.__init__`, lines 10-25): the
live-worker set `workers` (kept with an iteration order: a Python set
iterates in an arbitrary, hash-dependent order, and only membership
and emptiness of this field are ever used by the running dispatcher),
the sorted `worker_list` cache, the round-robin counter, the
per-worker load (`defaultdict(int)`, a total function defaulting to
0), the bounded per-worker bbox history (`deque(maxlen=history_len)`)
and the process-affinity map. -/
structure Sched where
  workers : List Nat
  worker_list : List Nat
  rr_counter : Nat
  load : Nat → Int
  history : Nat → List (List Int)
  history_len : Nat
  process_map : String → Option Nat

/-- The freshly constructed scheduler. -/
def initSched (history_len : Nat) : Sched :=
  ⟨[], [], 0, fun _ => 0, fun _ => [], history_len, fun _ => none⟩

/-- Insert into a sorted list, keeping it sorted. -/
def sortedInsert (x : Nat) : List Nat → List Nat
  | [] => [x]
  | y :: ys => if x ≤ y then x :: y :: ys else y :: sortedInsert x ys

/-- `sorted(...)` (insertion sort). -/
def sortList : List Nat → List Nat
  | [] => []
  | x :: xs => sortedInsert x (sortList xs)

/-- `_handle_worker_ready` (lines 49-55): re-registration is a no-op;
a new worker is added to the set, its load entry set to 0, and
`worker_list` recomputed as `sorted(list(self.workers))`.  (The
`ready_event.set()` call is modelled by the loop semantics below.) -/
def handleWorkerReady (st : Sched) (wid : Nat) : Sched :=
  if wid ∈ st.workers then st
  else
    { st with
      workers := wid :: st.workers
      worker_list := sortList (wid :: st.workers)
      load := fun v => if v = wid then 0 else st.load v }

/-- `_get_round_robin_worker` (lines 131-147): index
`rr_counter % len(worker_list)` into the sorted cache, then increment
the counter.  Only called after the dispatcher has checked that
workers exist, so the default of `getD` is unreachable. -/
def getRoundRobinWorker (st : Sched) : Nat × Sched :=
  (st.worker_list.getD (st.rr_counter % st.worker_list.length) 0,
    { st with rr_counter := st.rr_counter + 1 })

/-- `deque(maxlen=n).append`: keep the `n` most recent entries. -/
def pushHistory (maxlen : Nat) (h : List (List Int)) (bbox : List Int) : List (List Int) :=
  (h ++ [bbox]).drop ((h ++ [bbox]).length - maxlen)

/-- `self.worker_load[best_worker] += 1`. -/
def bumpLoad (load : Nat → Int) (w0 : Nat) : Nat → Int :=
  fun w => if w = w0 then load w + 1 else load w

/-- `self.worker_load[worker_id] = max(0, self.worker_load[worker_id] - 1)`.
The source guards this with `if worker_id in self.worker_load`; a
worker with no load entry was never registered or dispatched to, so
its implicit load is 0 and the saturating decrement leaves it at 0
either way — the unconditional total-function update is extensionally
identical. -/
def decLoad (load : Nat → Int) (w0 : Nat) : Nat → Int :=
  fun w => if w = w0 then max 0 (load w - 1) else load w

/-- `bbox = payload.get('bbox'); if bbox: history.append(bbox)` in
`_dispatch_request` (lines 160-162): READ payloads built by this
system always carry their bbox as an integer list, and an empty list
is falsy. -/
def updateHistory (st : Sched) (best : Nat) (payload : Payload) : Sched :=
  match dictGet payload "bbox" with
  | some (.il l) =>
      if l ≠ [] then
        { st with
          history := fun w =>
            if w = best then pushHistory st.history_len (st.history w) l
            else st.history w }
      else st
  | _ => st

/-- Frames the scheduler receives, already decoded: sender identity
plus payload, dispatched on the payload's `type` tag (unknown types
are logged and discarded by `run` and are not modelled). -/
inductive SchedMsg where
  | ready (wid : Nat)
  | read (client_id : List Nat) (payload : Payload)
  | result (wid : Nat) (payload : Payload)

/-- Frames the scheduler sends (`send_multipart([identity, b"", payload])`). -/
inductive SchedOut where
  | toWorker (wid : Nat) (payload : Payload)
  | toClient (client_id : List Nat) (payload : Payload)

/-- `_dispatch_request` (lines 150-173).  When no worker is registered
the code does `await self.ready_event.wait()`; `run()` is the
program's only asyncio task (`asyncio.run(scheduler.run())`) and
`ready_event.set()` is called only from `_handle_worker_ready`, which
only `run()` itself invokes — so that await can never be woken and the
scheduler is permanently stuck, which `none` models.  Otherwise:
round-robin choice, history append, load increment, `client_id`
injection, forward to the chosen worker. -/
def dispatchRequest (st : Sched) (client_id : List Nat) (payload : Payload) :
    Option (Sched × List SchedOut) :=
  if st.workers.isEmpty then none
  else
    let pair := getRoundRobinWorker st
    let st2 := updateHistory pair.2 pair.1 payload
    some ({ st2 with load := bumpLoad st2.load pair.1 },
      [.toWorker pair.1 (injectClientId payload client_id)])

/-- `_forward_result` (lines 120-128): saturating load decrement for
the sender, then forward the payload to the client identity stored in
it.  `payload['client_id']` on a payload without that field (or with a
non-bytes value, which `send_multipart` would reject) raises, killing
the scheduler: `none`. -/
def forwardResult (st : Sched) (wid : Nat) (payload : Payload) :
    Option (Sched × List SchedOut) :=
  match dictGet payload "client_id" with
  | some (.bytes cid) =>
      some ({ st with load := decLoad st.load wid },
        [.toClient cid payload])
  | _ => none

/-- One iteration of `SpatialScheduler.run` (lines 31-47): dispatch on
the message type. -/
def schedStep (st : Sched) : SchedMsg → Option (Sched × List SchedOut)
  | .ready wid => some (handleWorkerReady st wid, [])
  | .read cid payload => dispatchRequest st cid payload
  | .result wid payload => forwardResult st wid payload

/-- The scheduler loop over a finite arrival sequence: frames are
processed strictly in order by the single task; a `none` step (the
no-worker deadlock, or a KeyError) stops the loop for good — the
remaining frames are never received.  Returns the final state (`none`
if stuck) and everything sent. -/
def runSched : Sched → List SchedOut → List SchedMsg → Option Sched × List SchedOut
  | st, out, [] => (some st, out)
  | st, out, m :: ms =>
      match schedStep st m with
      | none => (none, out)
      | some r => runSched r.1 (out ++ r.2) ms

/-- A concrete READ payload used in witnesses and counterexamples. -/
def samplePayload : Payload :=
  sendRequestPayload "41_req_0a" [0, 0, 0, 10, 10, 1] [10, 10, 1, 1] "uint8" "41_shm_beef" "F"

/-! ## Affinity routing (src/SpatialScheduler.py `old_dispatch_request`) -/

/-- Python's `min(iterable, key=f)`: scan left to right, replacing the
current best only on a strictly smaller key — so the first element
attaining the minimum wins. -/
def pyMinBy (f : Nat → Int) (x : Nat) (xs : List Nat) : Nat :=
  xs.foldl (fun best v => if f v < f best then v else best) x

/-- `min(self.worker_load[w] for w in self.workers)` over the nonempty
worker set `x :: xs`. -/
def minLoad (load : Nat → Int) (x : Nat) (xs : List Nat) : Int :=
  xs.foldl (fun m v => min m (load v)) (load x)

/-- The routing decision of `old_dispatch_request`
(src/SpatialScheduler.py lines 57-118, strategy "Process Affinity +
Least Load Fallback"), given a nonempty worker set.  `x :: xs` is the
live set in its iteration order (a Python set iterates in an
arbitrary, hash-dependent order, so that order is an input of the
model).  `LOAD_TOLERANCE = 2` as in the source (line 81).  Returns the
chosen worker and the updated `process_map`; the bound worker is kept
when it is alive and its load is within tolerance of the minimum,
otherwise `min(self.workers, key=load)` is chosen and the map entry
for the pid is rebound to it. -/
def oldDispatchRoute (x : Nat) (xs : List Nat) (load : Nat → Int)
    (process_map : String → Option Nat) (pid : String) :
    Nat × (String → Option Nat) :=
  match process_map pid with
  | some t =>
      if t = x ∨ t ∈ xs then
        if load t ≤ minLoad load x xs + 2 then (t, process_map)
        else
          let best := pyMinBy load x xs
          (best, fun k => if k = pid then some best else process_map k)
      else
        let best := pyMinBy load x xs
        (best, fun k => if k = pid then some best else process_map k)
  | none =>
      let best := pyMinBy load x xs
      (best, fun k => if k = pid then some best else process_map k)

/-- The least-load worker with ties broken by the stable ordering on
identity: the first minimum of the identity-sorted worker list. -/
def argminStable (load : Nat → Int) (l : List Nat) : Nat :=
  match sortList l with
  | [] => 0
  | y :: ys => pyMinBy load y ys

/-- Modelled from the spec's words (§4.2 Strategy A items 4-5), for
comparison with `oldDispatchRoute`: affinity hit when the mapped
worker is alive and within tolerance 2 of the minimum load, otherwise
`argmin load` with ties broken by stable ordering on identity, and the
map entry updated. -/
def specStrategyARoute (x : Nat) (xs : List Nat) (load : Nat → Int)
    (process_map : String → Option Nat) (pid : String) :
    Nat × (String → Option Nat) :=
  match process_map pid with
  | some t =>
      if (t = x ∨ t ∈ xs) ∧ load t ≤ minLoad load x xs + 2 then (t, process_map)
      else
        let best := argminStable load (x :: xs)
        (best, fun k => if k = pid then some best else process_map k)
  | none =>
      let best := argminStable load (x :: xs)
      (best, fun k => if k = pid then some best else process_map k)

/-! # Theorems -/

/-! ## Geometry (claim C10) -/

theorem calc_intersection_volume_comm (a b : BBox) :
    calc_intersection_volume a b = calc_intersection_volume b a := by
  unfold calc_intersection_volume
  rw [max_comm a.x1, max_comm a.y1, max_comm a.z1,
      min_comm a.x2, min_comm a.y2, min_comm a.z2]

theorem calc_intersection_volume_nonneg (a b : BBox) :
    0 ≤ calc_intersection_volume a b := by
  unfold calc_intersection_volume
  split
  · exact le_refl 0
  · rename_i h
    push_neg at h
    obtain ⟨h1, h2, h3⟩ := h
    have p1 : (0 : Int) < min a.x2 b.x2 - max a.x1 b.x1 := by omega
    have p2 : (0 : Int) < min a.y2 b.y2 - max a.y1 b.y1 := by omega
    have p3 : (0 : Int) < min a.z2 b.z2 - max a.z1 b.z1 := by omega
    exact le_of_lt (mul_pos (mul_pos p1 p2) p3)

theorem calc_intersection_volume_self (a : BBox) (ha : a.valid) :
    calc_intersection_volume a a = bboxVolume a := by
  obtain ⟨hx, hy, hz⟩ := ha
  unfold calc_intersection_volume bboxVolume
  simp only [max_self, min_self]
  rw [if_neg]
  omega

theorem calc_intersection_volume_le_left (a b : BBox) (ha : a.valid) :
    calc_intersection_volume a b ≤ bboxVolume a := by
  obtain ⟨hx, hy, hz⟩ := ha
  unfold calc_intersection_volume bboxVolume
  split
  · exact le_of_lt (mul_pos (mul_pos (by omega) (by omega)) (by omega))
  · rename_i h
    push_neg at h
    obtain ⟨h1, h2, h3⟩ := h
    have l1 : min a.x2 b.x2 - max a.x1 b.x1 ≤ a.x2 - a.x1 := by omega
    have l2 : min a.y2 b.y2 - max a.y1 b.y1 ≤ a.y2 - a.y1 := by omega
    have l3 : min a.z2 b.z2 - max a.z1 b.z1 ≤ a.z2 - a.z1 := by omega
    have p2 : (0 : Int) ≤ min a.y2 b.y2 - max a.y1 b.y1 := by omega
    have p3 : (0 : Int) ≤ min a.z2 b.z2 - max a.z1 b.z1 := by omega
    have s1 : (min a.x2 b.x2 - max a.x1 b.x1) * (min a.y2 b.y2 - max a.y1 b.y1) ≤
        (a.x2 - a.x1) * (a.y2 - a.y1) :=
      mul_le_mul l1 l2 p2 (by omega)
    exact mul_le_mul s1 l3 p3 (mul_nonneg (by omega) (by omega))

/-- C10: the intersection-volume utility is symmetric and non-negative
for all flat boxes; on a valid half-open box `calc_intersection_volume
b b` is the volume of `b`; and for valid boxes it never exceeds the
volume of either argument. -/
theorem C10_intersection_volume_props (a b : BBox) :
    calc_intersection_volume a b = calc_intersection_volume b a ∧
    0 ≤ calc_intersection_volume a b ∧
    (a.valid → calc_intersection_volume a a = bboxVolume a) ∧
    (a.valid → b.valid →
      calc_intersection_volume a b ≤ bboxVolume a ∧
      calc_intersection_volume a b ≤ bboxVolume b) := by
  refine ⟨calc_intersection_volume_comm a b, calc_intersection_volume_nonneg a b,
    fun ha => calc_intersection_volume_self a ha, fun ha hb => ⟨?_, ?_⟩⟩
  · exact calc_intersection_volume_le_left a b ha
  · rw [calc_intersection_volume_comm]
    exact calc_intersection_volume_le_left b a hb

/-- Witness for C10 at the concrete boxes `(0,0,0,2,2,2)` and `(1,1,1,3,3,3)`. -/
theorem C10_intersection_volume_props_witness :
    calc_intersection_volume ⟨0, 0, 0, 2, 2, 2⟩ ⟨1, 1, 1, 3, 3, 3⟩ =
      calc_intersection_volume ⟨1, 1, 1, 3, 3, 3⟩ ⟨0, 0, 0, 2, 2, 2⟩ ∧
    0 ≤ calc_intersection_volume ⟨0, 0, 0, 2, 2, 2⟩ ⟨1, 1, 1, 3, 3, 3⟩ ∧
    calc_intersection_volume ⟨0, 0, 0, 2, 2, 2⟩ ⟨0, 0, 0, 2, 2, 2⟩ =
      bboxVolume ⟨0, 0, 0, 2, 2, 2⟩ ∧
    calc_intersection_volume ⟨0, 0, 0, 2, 2, 2⟩ ⟨1, 1, 1, 3, 3, 3⟩ ≤
      bboxVolume ⟨0, 0, 0, 2, 2, 2⟩ ∧
    calc_intersection_volume ⟨0, 0, 0, 2, 2, 2⟩ ⟨1, 1, 1, 3, 3, 3⟩ ≤
      bboxVolume ⟨1, 1, 1, 3, 3, 3⟩ := by
  have h := C10_intersection_volume_props ⟨0, 0, 0, 2, 2, 2⟩ ⟨1, 1, 1, 3, 3, 3⟩
  have hv := h.2.2.2 (by decide) (by decide)
  exact ⟨h.1, h.2.1, h.2.2.1 (by decide), hv.1, hv.2⟩

/-! ## Fill dispatch (claim C5) -/

/-- C5 counterexample: on a contiguous 8-byte integer array whose base
address `4` is *not* 8-byte aligned, `fast_fill` with the nonzero value
`5` still dispatches `parallel_fill_u64`; the claimed alignment check
(falling back to scalar on an unaligned base) does not exist in the
code. -/
theorem C5_no_alignment_check_counterexample :
    fast_fill true true ⟨true, false, 8, true, 10, 4⟩ 5 = .fillU64 10 5 ∧
    ¬(8 ∣ (ArrayDesc.baseAddr ⟨true, false, 8, true, 10, 4⟩)) := by
  decide

/-- C5 (amended): the dispatcher takes a fast path only when the native
library is loaded and the buffer is contiguous, and `fill_u64` is
invoked only for a nonzero value on an 8-byte integer dtype with the
symbol present — in which case the byte length is a multiple of 8 by
construction; no base-alignment check is performed, so under those
conditions `fill_u64` is dispatched regardless of the base address. -/
theorem C5_fill_dispatch (libLoaded hasU64 : Bool) (a : ArrayDesc) (value : Int) :
    ((∀ v, fast_fill libLoaded hasU64 a value ≠ .numpyFill v) →
      libLoaded = true ∧ (a.cContiguous = true ∨ a.fContiguous = true)) ∧
    (∀ n v, fast_fill libLoaded hasU64 a value = .fillU64 n v →
      value ≠ 0 ∧ a.itemsize = 8 ∧ a.intDtype = true ∧ hasU64 = true ∧
      n = a.size ∧ 8 ∣ a.nbytes) ∧
    (libLoaded = true → (a.cContiguous = true ∨ a.fContiguous = true) →
      value ≠ 0 → a.itemsize = 8 → a.intDtype = true → hasU64 = true →
      fast_fill libLoaded hasU64 a value =
        .fillU64 a.size ((value % (2 : Int) ^ 64).toNat)) := by
  refine ⟨?_, ?_, ?_⟩
  · intro hne
    have hl : ¬(libLoaded = false) := fun h =>
      hne value (by unfold fast_fill; rw [if_pos h])
    refine ⟨by simpa using hl, ?_⟩
    by_contra hc
    exact hne value (by unfold fast_fill; rw [if_neg hl, if_pos hc])
  · intro n v heq
    unfold fast_fill at heq
    split_ifs at heq with h1 h2 h3 h4 h5
    injection heq with hn hv
    refine ⟨h3, h4.1, h4.2, h5, hn.symm, a.size, ?_⟩
    simp [ArrayDesc.nbytes, h4.1, Nat.mul_comm]
  · intro hl hc hv h8 hi hu
    unfold fast_fill
    rw [if_neg (by simp [hl]), if_neg (not_not_intro hc), if_neg hv,
        if_pos ⟨h8, hi⟩, if_pos hu]

/-- Witness for C5 at a concrete loaded-library, contiguous, 8-byte
integer array with value 5. -/
theorem C5_fill_dispatch_witness :
    (true = true ∧ (true = true ∨ false = true)) ∧
    ((5 : Int) ≠ 0 ∧ 8 = 8 ∧ true = true ∧ true = true ∧
      10 = ArrayDesc.size ⟨true, false, 8, true, 10, 4⟩ ∧
      8 ∣ ArrayDesc.nbytes ⟨true, false, 8, true, 10, 4⟩) ∧
    fast_fill true true ⟨true, false, 8, true, 10, 4⟩ 5 =
      .fillU64 (ArrayDesc.size ⟨true, false, 8, true, 10, 4⟩)
        (((5 : Int) % (2 : Int) ^ 64).toNat) := by
  have h := C5_fill_dispatch true true ⟨true, false, 8, true, 10, 4⟩ 5
  have hred : fast_fill true true ⟨true, false, 8, true, 10, 4⟩ 5 = .fillU64 10 5 := by
    decide
  have h1 := h.1 (fun v hv => by rw [hred] at hv; exact FillCall.noConfusion hv)
  have h3 := h.2.2 rfl (Or.inl rfl) (by decide) rfl rfl rfl
  have h2 := h.2.1 10 5 hred
  exact ⟨h1, ⟨h2.1, h2.2.1, h2.2.2.1, h2.2.2.2.1, h2.2.2.2.2.1.symm, h2.2.2.2.2.2⟩, h3⟩

/-! ## READ record fields (claim C2) -/

/-- C2 counterexample: the READ record built by the client for a
concrete request consists of the seven fields type, req_id, bbox,
shape, dtype, shm_name, order — it contains neither a `data_size` nor
a `bg_color` field, contradicting the claimed field list. -/
theorem C2_read_fields_counterexample :
    dictKeys (sendRequestPayload "1_req_0a" [0, 0, 0, 1, 1, 1] [1, 1, 1, 1]
        "uint8" "1_shm_0b" "F") =
      ["type", "req_id", "bbox", "shape", "dtype", "shm_name", "order"] ∧
    "data_size" ∉ dictKeys (sendRequestPayload "1_req_0a" [0, 0, 0, 1, 1, 1]
        [1, 1, 1, 1] "uint8" "1_shm_0b" "F") ∧
    "bg_color" ∉ dictKeys (sendRequestPayload "1_req_0a" [0, 0, 0, 1, 1, 1]
        [1, 1, 1, 1] "uint8" "1_shm_0b" "F") := by
  decide

/-- C2 (amended): every READ record sent by the client contains exactly
the fields type, req_id, bbox (6 integers), shape (4 integers), dtype,
shm_name and order, in that insertion order — no data_size and no
bg_color — and the scheduler appends client_id, the raw transport
identity of the originating client, before forwarding to the chosen
worker. -/
theorem C2_read_record_fields (req_id : String) (b : BBox) (num_channels : Int)
    (dtype shm_name order : String) (client_id : List Nat) :
    dictKeys (sendRequestPayload req_id (bboxToList b)
        (computeShape b num_channels) dtype shm_name order) =
      ["type", "req_id", "bbox", "shape", "dtype", "shm_name", "order"] ∧
    (bboxToList b).length = 6 ∧
    (computeShape b num_channels).length = 4 ∧
    dictKeys (injectClientId (sendRequestPayload req_id (bboxToList b)
        (computeShape b num_channels) dtype shm_name order) client_id) =
      ["type", "req_id", "bbox", "shape", "dtype", "shm_name", "order", "client_id"] ∧
    dictGet (injectClientId (sendRequestPayload req_id (bboxToList b)
        (computeShape b num_channels) dtype shm_name order) client_id) "client_id" =
      some (.bytes client_id) := by
  exact ⟨rfl, rfl, rfl, rfl, rfl⟩

/-! ## No small-request bypass (claim C3) -/

/-- C3 counterexample: a request of element count 1 — below every
value of the small-request threshold the spec associates with the
source (10^6 to 10^10) — still creates the shared buffer and sends a
READ over the transport, and at no point calls the volume library
directly: `__getitem__` contains no small-request bypass at all. -/
theorem C3_no_bypass_counterexample :
    (1 : Int) < 10 ^ 6 ∧
    npProdInt64 (computeShape ⟨0, 0, 0, 1, 1, 1⟩ 1) = 1 ∧
    clientReadRun ⟨0, 1, 1, "uint8", "1_req_0a", "1_shm_0b"⟩ ⟨0, 0, 0, 1, 1, 1⟩
        true true .ok true =
      ([.createShm 1, .fillBuffer 0, .closeShm,
        .sendRead (sendRequestPayload "1_req_0a" [0, 0, 0, 1, 1, 1] [1, 1, 1, 1]
          "uint8" "1_shm_0b" "F"),
        .attachShm], false) ∧
    ClientAction.directVolumeCall ∉
      (clientReadRun ⟨0, 1, 1, "uint8", "1_req_0a", "1_shm_0b"⟩ ⟨0, 0, 0, 1, 1, 1⟩
        true true .ok true).1 := by
  decide

/-- C3 (amended): there is no small-request bypass — the client never
calls the local volume library directly on any path, and every read
whose shape product is nonzero as numpy computes it (int64 reduction
with wraparound, the guard the source actually tests) creates the
shared buffer and, when buffer initialisation and the send succeed,
sends a READ over the transport. -/
theorem C3_all_reads_brokered (env : ClientEnv) (b : BBox) (fillOk sendOk : Bool)
    (wait : WaitOutcome) (bufStillExists : Bool) :
    ClientAction.directVolumeCall ∉
      (clientReadRun env b fillOk sendOk wait bufStillExists).1 ∧
    (npProdInt64 (computeShape b env.num_channels) ≠ 0 →
      ClientAction.createShm
          (int64Wrap (npProdInt64 (computeShape b env.num_channels) * env.itemsize)) ∈
        (clientReadRun env b fillOk sendOk wait bufStillExists).1) ∧
    (npProdInt64 (computeShape b env.num_channels) ≠ 0 →
      fillOk = true → sendOk = true →
      ClientAction.sendRead (sendRequestPayload env.req_id (bboxToList b)
          (computeShape b env.num_channels) env.dtype env.shm_name "F") ∈
        (clientReadRun env b fillOk sendOk wait bufStillExists).1) := by
  by_cases h0 : npProdInt64 (computeShape b env.num_channels) = 0 <;>
    cases fillOk <;> cases sendOk <;> cases wait <;> cases bufStillExists <;>
      simp [clientReadRun, manualCleanupActions, h0]

/-- Witness for C3 with element count 100 and every failure knob on
the success path. -/
theorem C3_all_reads_brokered_witness :
    ClientAction.directVolumeCall ∉ (clientReadRun c1Env c1Box true true .ok true).1 ∧
    ClientAction.createShm
        (int64Wrap (npProdInt64 (computeShape c1Box (ClientEnv.num_channels c1Env)) *
          ClientEnv.itemsize c1Env)) ∈
      (clientReadRun c1Env c1Box true true .ok true).1 ∧
    ClientAction.sendRead (sendRequestPayload (ClientEnv.req_id c1Env) (bboxToList c1Box)
        (computeShape c1Box (ClientEnv.num_channels c1Env)) (ClientEnv.dtype c1Env)
        (ClientEnv.shm_name c1Env) "F") ∈
      (clientReadRun c1Env c1Box true true .ok true).1 := by
  have h := C3_all_reads_brokered c1Env c1Box true true .ok true
  exact ⟨h.1, h.2.1 (by decide), h.2.2 (by decide) rfl rfl⟩

/-! ## Empty-shape rejection (claim C8) -/

theorem int64Wrap_zero : int64Wrap 0 = 0 := by
  decide

/-- A truly zero product has a zero factor, so numpy's wrapped int64
product over the 4-element shape is zero as well. -/
theorem npProdInt64_computeShape_eq_zero (b : BBox) (c : Int)
    (h : prodInt (computeShape b c) = 0) :
    npProdInt64 (computeShape b c) = 0 := by
  have h' : (b.x2 - b.x1) * (b.y2 - b.y1) * (b.z2 - b.z1) * c = 0 := by
    simpa [prodInt, computeShape] using h
  have hfac : b.x2 - b.x1 = 0 ∨ b.y2 - b.y1 = 0 ∨ b.z2 - b.z1 = 0 ∨ c = 0 := by
    rcases mul_eq_zero.mp h' with h'' | h4
    · rcases mul_eq_zero.mp h'' with h''' | h3
      · rcases mul_eq_zero.mp h''' with h1 | h2
        · exact Or.inl h1
        · exact Or.inr (Or.inl h2)
      · exact Or.inr (Or.inr (Or.inl h3))
    · exact Or.inr (Or.inr (Or.inr h4))
  simp only [npProdInt64, computeShape, List.foldl_cons, List.foldl_nil]
  rcases hfac with h1 | h1 | h1 | h1 <;>
    simp [h1, int64Wrap_zero]

/-- C8: a requested region whose computed shape has product zero is
rejected on the client side before any I/O: `__getitem__` raises the
shape error having performed no action at all — no shared-buffer
creation, nothing sent over the transport.  (On a true zero product
numpy's wrapped product is also zero, so the source's int64 guard
fires exactly as required.) -/
theorem C8_empty_shape_rejected (env : ClientEnv) (b : BBox) (fillOk sendOk : Bool)
    (wait : WaitOutcome) (bufStillExists : Bool)
    (h : prodInt (computeShape b env.num_channels) = 0) :
    clientReadRun env b fillOk sendOk wait bufStillExists = ([], true) := by
  simp [clientReadRun, npProdInt64_computeShape_eq_zero b env.num_channels h]

/-- Witness for C8 at the spec's concrete scenario `bbox=(5,5,5,5,6,6)`. -/
theorem C8_empty_shape_rejected_witness :
    clientReadRun ⟨0, 1, 1, "uint8", "1_req_0a", "1_shm_0b"⟩ ⟨5, 5, 5, 5, 6, 6⟩
      true true .ok true = ([], true) :=
  C8_empty_shape_rejected ⟨0, 1, 1, "uint8", "1_req_0a", "1_shm_0b"⟩
    ⟨5, 5, 5, 5, 6, 6⟩ true true .ok true (by decide)

/-! ## No leak on error paths (claim C9) -/

/-- C9: whenever `__getitem__` raises after the shared buffer was
created, and the buffer still exists, the run unlinks it (through
`_init_shared_buffer`'s own handler or `_manual_cleanup`) before the
error surfaces; when the buffer no longer exists there is nothing to
unlink and nothing leaks. -/
theorem C9_no_leak_on_error (env : ClientEnv) (b : BBox) (fillOk sendOk : Bool)
    (wait : WaitOutcome) (bufStillExists : Bool)
    (herr : (clientReadRun env b fillOk sendOk wait bufStillExists).2 = true)
    (hcre : ∃ n, ClientAction.createShm n ∈
      (clientReadRun env b fillOk sendOk wait bufStillExists).1)
    (hex : bufStillExists = true) :
    ClientAction.unlinkShm ∈ (clientReadRun env b fillOk sendOk wait bufStillExists).1 := by
  subst hex
  by_cases h0 : npProdInt64 (computeShape b env.num_channels) = 0
  · obtain ⟨n, hn⟩ := hcre
    simp [clientReadRun, h0] at hn
  · cases fillOk <;> cases sendOk <;> cases wait <;>
      simp_all [clientReadRun, manualCleanupActions, h0]

/-- Witness for C9 on the timeout path of a 100-element request. -/
theorem C9_no_leak_on_error_witness :
    ClientAction.unlinkShm ∈ (clientReadRun c1Env c1Box true true .timeout true).1 :=
  C9_no_leak_on_error c1Env c1Box true true .timeout true (by decide)
    ⟨100, by decide⟩ rfl

/-! ## Background fill of missing regions (claim C1) -/

/-- C1 evaluated at the failing input: for the spec's minimal scenario
(bbox `(0,0,0,10,10,1)`, one channel, `bg_color = 7`) with the
requested region entirely missing, every element of the buffer handed
back to the client is `0`, not `bg_color = 7`: the READ payload the
worker receives — even after the scheduler's `client_id` injection —
carries no `bg_color` field, so `req.get('bg_color', 0)` makes the
worker overwrite the client's background fill with the default `0`
before the volume read (which, for an entirely missing region, writes
nothing). -/
theorem C1_background_fill_defaults_to_zero :
    dictGet (injectClientId (sendRequestPayload (ClientEnv.req_id c1Env)
        (bboxToList c1Box) (computeShape c1Box (ClientEnv.num_channels c1Env))
        (ClientEnv.dtype c1Env) (ClientEnv.shm_name c1Env) "F") [9, 9])
      "bg_color" = none ∧
    workerFillValue (injectClientId (sendRequestPayload (ClientEnv.req_id c1Env)
        (bboxToList c1Box) (computeShape c1Box (ClientEnv.num_channels c1Env))
        (ClientEnv.dtype c1Env) (ClientEnv.shm_name c1Env) "F") [9, 9]) = 0 ∧
    ClientEnv.background_color c1Env = 7 ∧
    (∀ x ∈ brokeredMissingReadResult c1Env c1Box [9, 9], x = 0) ∧
    (0 : Int) ≠ 7 := by
  decide

/-! ## Scheduler loop (claims C4 and C6) -/

theorem updateHistory_load (st : Sched) (b : Nat) (p : Payload) :
    (updateHistory st b p).load = st.load := by
  unfold updateHistory
  cases hbb : dictGet p "bbox" with
  | none => rfl
  | some v =>
      cases v with
      | il l =>
          dsimp only
          split <;> rfl
      | s v => rfl
      | i v => rfl
      | bytes v => rfl

theorem getRoundRobinWorker_load (st : Sched) :
    (getRoundRobinWorker st).2.load = st.load := rfl

theorem schedStep_load_nonneg {st : Sched} {m : SchedMsg} {r : Sched × List SchedOut}
    (hinv : ∀ w, 0 ≤ st.load w) (hs : schedStep st m = some r) :
    ∀ w, 0 ≤ r.1.load w := by
  intro w
  cases m with
  | ready wid =>
      simp only [schedStep] at hs
      injection hs with h
      subst h
      dsimp only
      unfold handleWorkerReady
      split
      · exact hinv w
      · dsimp only
        by_cases hw : w = wid
        · simp [hw]
        · simp [hw, hinv w]
  | read cid payload =>
      simp only [schedStep] at hs
      unfold dispatchRequest at hs
      split at hs
      · exact absurd hs (by simp)
      · dsimp only at hs
        injection hs with h
        subst h
        dsimp only
        simp only [bumpLoad, updateHistory_load, getRoundRobinWorker_load]
        have := hinv w
        split <;> omega
  | result wid payload =>
      simp only [schedStep] at hs
      unfold forwardResult at hs
      split at hs
      · injection hs with h
        subst h
        dsimp only
        simp only [decLoad]
        have := hinv w
        split <;> omega
      · exact absurd hs (by simp)

theorem runSched_load_nonneg (msgs : List SchedMsg) :
    ∀ (st : Sched) (out : List SchedOut) (st' : Sched) (out' : List SchedOut),
      (∀ w, 0 ≤ st.load w) → runSched st out msgs = (some st', out') →
      ∀ w, 0 ≤ st'.load w := by
  induction msgs with
  | nil =>
      intro st out st' out' hinv heq w
      unfold runSched at heq
      injection heq with h1 h2
      injection h1 with h1
      exact h1 ▸ hinv w
  | cons m ms ih =>
      intro st out st' out' hinv heq w
      unfold runSched at heq
      cases hs : schedStep st m with
      | none =>
          rw [hs] at heq
          exact absurd heq (by simp)
      | some r =>
          rw [hs] at heq
          dsimp only at heq
          exact ih r.1 (out ++ r.2) st' out' (schedStep_load_nonneg hinv hs) heq w

/-- C4 evaluated at its failing input: starting with no workers, the
frame sequence READ-then-READY leaves the scheduler permanently stuck
at the READ — `_dispatch_request` awaits `ready_event.wait()` inside
the program's only task, so the READY frame is never received, the
event is never set, and the pending READ is never dispatched: the
loop ends with no state and nothing ever sent. -/
theorem C4_read_before_ready_never_dispatched :
    runSched (initSched 5) [] [.read [7] samplePayload, .ready 1] = (none, []) := rfl

/-- C6: per-worker load is non-negative in every state the scheduler
loop can reach; dispatching a READ increments exactly the chosen
worker's load by one (and sends the payload, with client_id injected,
to that same worker); and a RESULT from worker `wid` applies the
saturating decrement `max 0 (load - 1)` to exactly `wid`'s load. -/
theorem C6_worker_load_invariant :
    (∀ (hlen : Nat) (msgs : List SchedMsg) (st' : Sched) (out : List SchedOut) (w : Nat),
      runSched (initSched hlen) [] msgs = (some st', out) → 0 ≤ st'.load w) ∧
    (∀ (st : Sched) (cid : List Nat) (payload : Payload),
      st.workers.isEmpty = false →
      ∃ st', dispatchRequest st cid payload =
          some (st', [.toWorker (getRoundRobinWorker st).1 (injectClientId payload cid)]) ∧
        st'.load (getRoundRobinWorker st).1 = st.load (getRoundRobinWorker st).1 + 1 ∧
        ∀ w, w ≠ (getRoundRobinWorker st).1 → st'.load w = st.load w) ∧
    (∀ (st : Sched) (wid : Nat) (payload : Payload) (cid : List Nat),
      dictGet payload "client_id" = some (.bytes cid) →
      ∃ st', forwardResult st wid payload = some (st', [.toClient cid payload]) ∧
        st'.load wid = max 0 (st.load wid - 1) ∧
        ∀ w, w ≠ wid → st'.load w = st.load w) := by
  refine ⟨?_, ?_, ?_⟩
  · intro hlen msgs st' out w heq
    exact runSched_load_nonneg msgs (initSched hlen) [] st' out (fun _ => le_refl 0) heq w
  · intro st cid payload he
    have hne : ¬(st.workers.isEmpty = true) := by simp [he]
    refine ⟨{ updateHistory (getRoundRobinWorker st).2 (getRoundRobinWorker st).1 payload with
        load := bumpLoad (updateHistory (getRoundRobinWorker st).2
          (getRoundRobinWorker st).1 payload).load (getRoundRobinWorker st).1 },
      ?_, ?_, ?_⟩
    · unfold dispatchRequest
      rw [if_neg hne]
    · dsimp only
      rw [updateHistory_load, getRoundRobinWorker_load]
      simp [bumpLoad]
    · intro w hw
      dsimp only
      rw [updateHistory_load, getRoundRobinWorker_load]
      simp [bumpLoad, hw]
  · intro st wid payload cid hcid
    refine ⟨{ st with load := decLoad st.load wid }, ?_, ?_, ?_⟩
    · unfold forwardResult
      rw [hcid]
    · dsimp only
      simp [decLoad]
    · intro w hw
      dsimp only
      simp [decLoad, hw]

/-- Witness for C6: one READY registration trace, one dispatch and one
result forwarding at concrete states. -/
theorem C6_worker_load_invariant_witness :
    0 ≤ (handleWorkerReady (initSched 5) 3).load 3 ∧
    (∃ st', dispatchRequest (handleWorkerReady (initSched 5) 3) [7] samplePayload =
        some (st', [.toWorker (getRoundRobinWorker (handleWorkerReady (initSched 5) 3)).1
          (injectClientId samplePayload [7])]) ∧
      st'.load (getRoundRobinWorker (handleWorkerReady (initSched 5) 3)).1 =
        (handleWorkerReady (initSched 5) 3).load
          (getRoundRobinWorker (handleWorkerReady (initSched 5) 3)).1 + 1 ∧
      ∀ w, w ≠ (getRoundRobinWorker (handleWorkerReady (initSched 5) 3)).1 →
        st'.load w = (handleWorkerReady (initSched 5) 3).load w) ∧
    (∃ st', forwardResult (handleWorkerReady (initSched 5) 3) 3
        (injectClientId samplePayload [7]) =
        some (st', [.toClient [7] (injectClientId samplePayload [7])]) ∧
      st'.load 3 = max 0 ((handleWorkerReady (initSched 5) 3).load 3 - 1) ∧
      ∀ w, w ≠ 3 → st'.load w = (handleWorkerReady (initSched 5) 3).load w) := by
  refine ⟨?_, ?_, ?_⟩
  · exact C6_worker_load_invariant.1 5 [.ready 3] (handleWorkerReady (initSched 5) 3) [] 3 rfl
  · exact C6_worker_load_invariant.2.1 (handleWorkerReady (initSched 5) 3) [7]
      samplePayload (by decide)
  · exact C6_worker_load_invariant.2.2 (handleWorkerReady (initSched 5) 3) 3
      (injectClientId samplePayload [7]) [7] (by decide)

/-! ## Affinity routing (claim C7) -/

theorem pyMinBy_mem (f : Nat → Int) (x : Nat) (xs : List Nat) :
    pyMinBy f x xs = x ∨ pyMinBy f x xs ∈ xs := by
  induction xs generalizing x with
  | nil => exact Or.inl rfl
  | cons y ys ih =>
      have hstep : pyMinBy f x (y :: ys) = pyMinBy f (if f y < f x then y else x) ys := rfl
      rw [hstep]
      by_cases h : f y < f x
      · rw [if_pos h]
        rcases ih y with h1 | h1
        · exact Or.inr (by rw [h1]; exact List.mem_cons_self y ys)
        · exact Or.inr (List.mem_cons_of_mem y h1)
      · rw [if_neg h]
        rcases ih x with h1 | h1
        · exact Or.inl h1
        · exact Or.inr (List.mem_cons_of_mem y h1)

theorem pyMinBy_attains_min (f : Nat → Int) (ys : List Nat) :
    ∀ x, f (pyMinBy f x ys) = List.foldl (fun m v => min m (f v)) (f x) ys := by
  induction ys with
  | nil => intro x; rfl
  | cons y ys ih =>
      intro x
      have hstep : pyMinBy f x (y :: ys) = pyMinBy f (if f y < f x then y else x) ys := rfl
      have hstep2 : List.foldl (fun m v => min m (f v)) (f x) (y :: ys) =
          List.foldl (fun m v => min m (f v)) (min (f x) (f y)) ys := rfl
      rw [hstep, hstep2, ih (if f y < f x then y else x)]
      congr 1
      by_cases h : f y < f x
      · rw [if_pos h]
        omega
      · rw [if_neg h]
        omega

theorem pyMinBy_load_eq_minLoad (load : Nat → Int) (x : Nat) (xs : List Nat) :
    load (pyMinBy load x xs) = minLoad load x xs :=
  pyMinBy_attains_min load xs x

/-- C7 counterexample: with two equally-loaded live workers whose set
iteration order is `[2, 1]` and no existing map entry for the affinity
key, `old_dispatch_request` routes to worker 2 — the first minimum in
set iteration order — whereas the claimed tie-break by stable ordering
on identity would route to worker 1.  (Python set iteration order over
the opaque identity byte strings is hash-randomised, so the order is
an input of the model.) -/
theorem C7_tiebreak_counterexample :
    (oldDispatchRoute 2 [1] (fun _ => 0) (fun _ => none) "5").1 = 2 ∧
    (specStrategyARoute 2 [1] (fun _ => 0) (fun _ => none) "5").1 = 1 ∧
    (2 : Nat) ≠ 1 := by
  exact ⟨rfl, rfl, by decide⟩

/-- C7 (amended): if the process map holds a worker for the affinity
key, that worker is alive, and its load is within tolerance 2 of the
minimum over live workers, the request is routed to it with the map
unchanged; otherwise the request is routed to `min(workers, key=load)`
— the first minimum-load worker in the set's iteration order, which is
alive and attains the minimum load — and the map entry for the key is
rebound to it. -/
theorem C7_affinity_routing (x : Nat) (xs : List Nat) (load : Nat → Int)
    (process_map : String → Option Nat) (pid : String) :
    (∀ t, process_map pid = some t → (t = x ∨ t ∈ xs) →
      load t ≤ minLoad load x xs + 2 →
      oldDispatchRoute x xs load process_map pid = (t, process_map)) ∧
    ((process_map pid = none ∨ (∃ t, process_map pid = some t ∧
        (¬(t = x ∨ t ∈ xs) ∨ minLoad load x xs + 2 < load t))) →
      oldDispatchRoute x xs load process_map pid =
        (pyMinBy load x xs,
          fun k => if k = pid then some (pyMinBy load x xs) else process_map k)) ∧
    (pyMinBy load x xs = x ∨ pyMinBy load x xs ∈ xs) ∧
    load (pyMinBy load x xs) = minLoad load x xs := by
  refine ⟨?_, ?_, pyMinBy_mem load x xs, pyMinBy_load_eq_minLoad load x xs⟩
  · intro t hpm hlive hload
    unfold oldDispatchRoute
    rw [hpm]
    dsimp only
    rw [if_pos hlive, if_pos hload]
  · intro h
    unfold oldDispatchRoute
    rcases h with hnone | ⟨t, hpm, hbad⟩
    · rw [hnone]
    · rw [hpm]
      dsimp only
      rcases hbad with hdead | hbusy
      · rw [if_neg hdead]
      · by_cases hlive : t = x ∨ t ∈ xs
        · rw [if_pos hlive, if_neg (by omega)]
        · rw [if_neg hlive]

/-- Witness for C7: an affinity hit and a rebind at concrete states
(two workers with equal zero loads, affinity key "5"). -/
theorem C7_affinity_routing_witness :
    oldDispatchRoute 2 [1] (fun _ => 0)
        (fun k => if k = "5" then some 1 else none) "5" =
      (1, fun k => if k = "5" then some 1 else none) ∧
    oldDispatchRoute 2 [1] (fun _ => 0) (fun _ => none) "5" =
      (pyMinBy (fun _ => 0) 2 [1],
        fun k => if k = "5" then some (pyMinBy (fun _ => 0) 2 [1]) else (fun _ => none) k) ∧
    (pyMinBy (fun _ => (0 : Int)) 2 [1] = 2 ∨ pyMinBy (fun _ => (0 : Int)) 2 [1] ∈ [1]) ∧
    (fun _ => (0 : Int)) (pyMinBy (fun _ => (0 : Int)) 2 [1]) =
      minLoad (fun _ => 0) 2 [1] := by
  have h := C7_affinity_routing 2 [1] (fun _ => 0)
    (fun k => if k = "5" then some 1 else none) "5"
  have h2 := C7_affinity_routing 2 [1] (fun _ => 0) (fun _ => none) "5"
  exact ⟨h.1 1 (by decide) (by decide) (by decide), h2.2.1 (Or.inl rfl),
    h2.2.2.1, h2.2.2.2⟩

end DCV
